import Mathlib

/-!
Verification of the django-honeyguard detection engine against its
natural-language specification.

The Python sources under `django_honeyguard/` are shallowly embedded:
pure functions become Lean functions, Python dict/session state becomes
explicit structures, float arithmetic on elapsed seconds is modelled with
exact rationals, and fallible operations return `Option`/`Except`.
Each definition carries a comment naming the Python source it embeds.
-/

namespace HoneyGuard

/-- Python truthiness of a string: `bool(s)` is `True` iff `s` is non-empty. -/
def pyBool (s : String) : Bool := s ≠ ""

/-- Python's `str.strip()` with no argument: remove leading and trailing
whitespace.  (Defined over the character list so that it evaluates by
kernel reduction.) -/
def pyStrip (s : String) : String :=
  String.mk
    (((s.data.dropWhile Char.isWhitespace).reverse.dropWhile
      Char.isWhitespace).reverse)

/-! ## models.py -/

/-- `models.TimingIssue` (`models.py` lines 5-8): the `TextChoices`
enumeration with members `TOO_FAST`, `TOO_SLOW`, `VALID`. -/
inductive TimingIssue where
  | TOO_FAST
  | TOO_SLOW
  | VALID
deriving DecidableEq, Repr

/-- The stored database value of each `TimingIssue` choice
(`models.py` lines 6-8). -/
def TimingIssue.value : TimingIssue → String
  | .TOO_FAST => "too_fast"
  | .TOO_SLOW => "too_slow"
  | .VALID => "valid"

/-- The detection-relevant fields of `models.HoneyGuardLog`
(`models.py` lines 16-99).  The remaining columns (ip, path, referer,
accept headers, timestamps, raw metadata) carry no logic and are not
consulted by `is_bot` or `risk_score`, so they are omitted from the
record; `user_agent` is kept as the raw string because `risk_score`
tests its Python truthiness. -/
structure HoneyGuardLog where
  honeypot_triggered : Bool
  timing_issue : TimingIssue
  user_agent : String
  elapsed_time : Option ℚ := none
deriving DecidableEq, Repr

/-- `HoneyGuardLog.is_bot` (`models.py` lines 110-115):
`self.honeypot_triggered or self.timing_issue == TimingIssue.TOO_FAST`. -/
def HoneyGuardLog.is_bot (log : HoneyGuardLog) : Bool :=
  log.honeypot_triggered || (log.timing_issue == TimingIssue.TOO_FAST)

/-- `HoneyGuardLog.risk_score` (`models.py` lines 117-132): starts at 0,
adds 50 if the honeypot field was filled, 30 if timing was too fast,
20 if `not self.user_agent` (empty user-agent string), then
`min(score, 100)`. -/
def HoneyGuardLog.risk_score (log : HoneyGuardLog) : Nat :=
  let score : Nat := 0
  let score := if log.honeypot_triggered then score + 50 else score
  let score := if log.timing_issue == TimingIssue.TOO_FAST then score + 30 else score
  let score := if !(pyBool log.user_agent) then score + 20 else score
  min score 100

/-! ## utils.py: the timing classifier -/

/-- `utils.check_timing_attack` (`utils.py` lines 54-88), with the call
`timezone.datetime.fromisoformat(render_time)` abstracted into the
`parsedRenderTime` argument: `some rt` is a successful parse yielding the
render timestamp `rt` (in seconds, made timezone-aware when naive), and
`none` is the `ValueError`/`TypeError` raised for an absent or unparsable
input, which the `except` clause turns into the result `(None, None)`
after logging a warning (the function itself never raises).  `now` is
`timezone.now()` at submission; the two thresholds are the values read
from `honeyguard_settings`; float seconds are modelled as rationals. -/
def check_timing_attack (parsedRenderTime : Option ℚ) (now : ℚ)
    (tooFastThreshold tooSlowThreshold : ℚ) :
    Option TimingIssue × Option ℚ :=
  match parsedRenderTime with
  | some renderTime =>
      let elapsed := now - renderTime
      if elapsed < tooFastThreshold then
        (some TimingIssue.TOO_FAST, some elapsed)
      else if elapsed > tooSlowThreshold then
        (some TimingIssue.TOO_SLOW, some elapsed)
      else
        (some TimingIssue.VALID, some elapsed)
  | none => (none, none)

/-! ## The three honeypot-flag computations -/

/-- Python `dict.get(key, default)` over an association-list model of a
dictionary with string values. -/
def dictGet (d : List (String × String)) (key dflt : String) : String :=
  match d with
  | [] => dflt
  | (k, v) :: rest => if k = key then v else dictGet rest key dflt

/-- `LoginFormMixin.is_honeypot_triggered` (`mixins.py` lines 19-21):
`bool(self.data.get("hp", "").strip())`. -/
def is_honeypot_triggered (data : List (String × String)) : Bool :=
  pyBool (pyStrip (dictGet data "hp" ""))

/-- The honeypot flag computed in `HoneyGuardService.__init__`
(`services.py` line 36): `bool(self.data.get("hp", "").strip())`. -/
def serviceHoneypotTriggered (data : List (String × String)) : Bool :=
  pyBool (pyStrip (dictGet data "hp" ""))

/-- The honeypot flag computed in `FakeAdminView._trigger_honeypot_signal`
(`views.py` line 94): `bool(form_data.get("hp", ""))` — note: no
`.strip()` on this path. -/
def viewsHoneypotTriggered (form_data : List (String × String)) : Bool :=
  pyBool (dictGet form_data "hp" "")

/-! ## conf.py: settings lookup

`conf.py` stores heterogeneous setting values (strings, numbers, booleans,
lists, `None`); they are embedded as a `Value` sum type. -/

/-- A Python value as it occurs among the honeyguard settings. -/
inductive Value where
  | str (s : String)
  | int (n : Int)
  | float (q : ℚ)
  | bool (b : Bool)
  | list (l : List Value)
  | none

/-- The `DEFAULTS` dictionary (`conf.py` lines 7-34), as a partial map
from setting name to default value.  `Option.none` means the name is not
a honeyguard setting (lookup in `__getattr__` raises `AttributeError`). -/
def DEFAULTS (name : String) : Option Value :=
  if name = "EMAIL_RECIPIENTS" then some (.list [])
  else if name = "EMAIL_SUBJECT_PREFIX" then some (.str "🚨 Honeypot Alert")
  else if name = "EMAIL_FROM" then some .none
  else if name = "TIMING_TOO_FAST_THRESHOLD" then some (.float 2)
  else if name = "TIMING_TOO_SLOW_THRESHOLD" then some (.float 600)
  else if name = "ENABLE_CONSOLE_LOGGING" then some (.bool true)
  else if name = "LOG_LEVEL" then some (.str "WARNING")
  else if name = "ENABLE_GET_METHOD_DETECTION" then some (.bool false)
  else if name = "MAX_USERNAME_LENGTH" then some (.int 150)
  else if name = "MAX_PASSWORD_LENGTH" then some (.int 128)
  else if name = "WORDPRESS_USERNAME_MAX_LENGTH" then some (.int 60)
  else if name = "WORDPRESS_PASSWORD_MAX_LENGTH" then some (.int 255)
  else if name = "DJANGO_ERROR_MESSAGE" then
    some (.str "Please enter a correct username and password. Note that both fields may be case-sensitive.")
  else if name = "WORDPRESS_ERROR_MESSAGE" then
    some (.str "<strong>Error:</strong> The password you entered for the username is incorrect.")
  else Option.none

/-- Python `dict` / attribute lookup over `Value`-valued association
lists: the `Option` result distinguishes a present key from a missing
one (`in` test / `getattr` default). -/
def pyLookup (d : List (String × Value)) (key : String) : Option Value :=
  match d with
  | [] => Option.none
  | (k, v) :: rest => if k = key then some v else pyLookup rest key

/-- The slice of `django.conf.settings` consulted by `conf.Settings`:
the optional `HONEYGUARD` dictionary (`getattr(dj_settings, "HONEYGUARD",
{})` defaults a missing attribute to `{}`) and the individually named
`HONEYGUARD_*` attributes, keyed by their full attribute name. -/
structure DjangoSettings where
  honeyguard : Option (List (String × Value))
  attrs : List (String × Value)

/-- `Settings._get_setting` (`conf.py` lines 89-120): first the
`HONEYGUARD` dictionary, then the `HONEYGUARD_<name>` attribute, then
`DEFAULTS[setting]`.  The deprecation branch only emits a warning and is
omitted; `_get_setting` is only reached from `__getattr__` with
`name ∈ DEFAULTS`, so `DEFAULTS[setting]` is defaulted with `.none`
(never hit on valid names). -/
def get_setting (dj : DjangoSettings) (name : String) : Value :=
  let honeyguard_config := dj.honeyguard.getD []
  match pyLookup honeyguard_config name with
  | some v => v
  | Option.none =>
      match pyLookup dj.attrs ("HONEYGUARD_" ++ name) with
      | some v => v
      | Option.none => (DEFAULTS name).getD Value.none

/-- The errors a `Settings` attribute access could signal.  The
`improperlyConfigured` constructor exists to express the specification's
validation contract; the embedded code below never produces it, because
`conf.py` contains no validation logic. -/
inductive SettingsError where
  | attributeError
  | improperlyConfigured (msg : String)
deriving DecidableEq, Repr

/-- `Settings.__getattr__` (`conf.py` lines 61-87) on a cache miss:
unknown names raise `AttributeError`; otherwise the value from
`_get_setting` is returned (and cached).  The callable-execution step is
skipped because no setting value in the model is a callable.  Note the
absence of any validation or normalization between `_get_setting` and
the returned value. -/
def settingsAccess (dj : DjangoSettings) (name : String) :
    Except SettingsError Value :=
  match DEFAULTS name with
  | Option.none => .error .attributeError
  | some _ => .ok (get_setting dj name)

/-! ## views.py: session state across dispatch -/

/-- HTTP method of a request reaching `FakeAdminView`. -/
inductive Method where
  | GET
  | POST
deriving DecidableEq, Repr

/-- The slice of the Django session used by `FakeAdminView`: the
`"form_render_time"` key (`none` = key absent). -/
structure Session where
  form_render_time : Option String
deriving DecidableEq, Repr

/-- `FakeAdminView.post` (`views.py` lines 61-76) as a session
transformer.  `super().post(...)` runs form processing first — on both
the `form_valid` and `form_invalid` branches `_trigger_honeypot_signal`
calls `_check_timing` (`views.py` lines 106-119), which reads
`session.get("form_render_time")` — and only after that response is
produced does `post` run `request.session.pop("form_render_time", None)`.
The returned pair is (render time consumed by the timing check, session
after `post`). -/
def postStep (s : Session) : Option String × Session :=
  let renderTimeRead := s.form_render_time
  (renderTimeRead, { form_render_time := Option.none })

/-- `FakeAdminView.get` (`views.py` lines 44-59) as a session
transformer: it never touches `form_render_time` and performs no timing
check. -/
def getStep (s : Session) : Option String × Session :=
  (Option.none, s)

/-- `FakeAdminView.dispatch` (`views.py` lines 28-42): it first lets
`super().dispatch` produce the response (routing to `get` or `post`),
then unconditionally executes
`request.session["form_render_time"] = timezone.now().isoformat()`.
`now` is that post-response timestamp. -/
def dispatchStep (m : Method) (s : Session) (now : String) :
    Option String × Session :=
  let (renderTimeRead, s') := match m with
    | .POST => postStep s
    | .GET => getStep s
  (renderTimeRead, { s' with form_render_time := some now })

/-! ## handlers.py and utils.build_email_body: the persistence/email sinks -/

/-- The keys of the signal `data` dictionary that `handlers.py` reads
(built by `views._trigger_honeypot_signal` from `get_request_metadata`
plus the form data).  Each field is `Option`al: `none` models a missing
dictionary key, so Python's `data.get(k, d)` becomes `getD`. -/
structure SignalData where
  username_attempted : Option String := Option.none
  password_attempted : Option String := Option.none
  honeypot_triggered : Option Bool := Option.none
  user_agent : Option String := Option.none
  referer : Option String := Option.none
  accept_language : Option String := Option.none
  accept_encoding : Option String := Option.none
  timing_issue : Option String := Option.none
  elapsed_time : Option ℚ := Option.none

/-- The columns of the `HoneyGuardLog` row created by
`handlers.log_to_database`. -/
structure LogRow where
  ip_address : String
  path : String
  username_attempted : String
  password_attempted : String
  honeypot_triggered : Bool
  user_agent : String
  referer : String
  accept_language : String
  accept_encoding : String
  request_method : String
  timing_issue : String
  elapsed_time : Option ℚ

/-- `handlers.log_to_database` (`handlers.py` lines 33-71): the field
values passed to `HoneyGuardLog.objects.create`.  The `apps.is_installed`
guard and the exception logging around `create` are I/O plumbing and are
omitted; the row below is exactly what is persisted when the create
succeeds.  `data.get("timing_issue", TimingIssue.VALID)` defaults to the
`TimingIssue.VALID` choice value. -/
def log_to_database_row (request_path request_method ip_address : String)
    (data : SignalData) : LogRow :=
  { ip_address := ip_address
    path := request_path
    username_attempted := data.username_attempted.getD ""
    password_attempted := data.password_attempted.getD ""
    honeypot_triggered := data.honeypot_triggered.getD false
    user_agent := data.user_agent.getD ""
    referer := data.referer.getD ""
    accept_language := data.accept_language.getD ""
    accept_encoding := data.accept_encoding.getD ""
    request_method := request_method
    timing_issue := (data.timing_issue).getD TimingIssue.VALID.value
    elapsed_time := data.elapsed_time }

/-- Stand-in for Python's `f"{elapsed_time:.2f}"` display formatting of
the elapsed seconds (formatting only; carries no logic). -/
def formatSeconds (e : ℚ) : String := toString e

/-- `utils.build_email_body` (`utils.py` lines 91-156) as the list of
lines that are joined with `"\n"`.  Python `x or default` on the string
arguments becomes an emptiness test; `data.get('timestamp', 'N/A')`,
`data.get('accept_language', 'N/A')`, `data.get('accept_encoding',
'N/A')` and `str(data)` are received as the already-extracted arguments
`timestamp`, `accept_language`, `accept_encoding` and `dataStr`. -/
def build_email_body_lines (ip_address path method timestamp : String)
    (username password : String) (honeypot_triggered_flag : Bool)
    (timing_issue : Option String) (elapsed_time : Option ℚ)
    (user_agent referer accept_language accept_encoding dataStr : String) :
    List String :=
  let email_lines := [
    "🚨 Honeypot Alert - " ++ path,
    "",
    "=== Request Details ===",
    "IP Address: " ++ ip_address,
    "Path: " ++ path,
    "Method: " ++ method,
    "Timestamp: " ++ timestamp,
    "",
    "=== Authentication Attempt ===",
    "Username: " ++ (if username = "" then "(empty)" else username),
    "Password: " ++ (if password = "" then "(empty)" else password),
    "",
    "=== Detection Flags ===",
    "Honeypot Field Triggered: " ++
      (if honeypot_triggered_flag then "✓ YES" else "✗ No"),
    "Timing Issue: " ++
      (match timing_issue with
        | some s => if s = "" then "None" else s
        | Option.none => "None") ]
  let email_lines := email_lines ++
    (match elapsed_time with
      | some e => ["Submission Time: " ++ formatSeconds e ++ " seconds"]
      | Option.none => [])
  email_lines ++ [
    "",
    "=== Browser & Environment ===",
    "User Agent: " ++ (if user_agent = "" then "(empty)" else user_agent),
    "Referer: " ++ (if referer = "" then "None" else referer),
    "Accept-Language: " ++ accept_language,
    "Accept-Encoding: " ++ accept_encoding,
    "",
    "=== Full Metadata ===",
    dataStr ]

/-- `handlers.send_alert_email` (`handlers.py` lines 112-143): the
message body it hands to `utils.send_email_alert`, with the username and
password taken raw from `data.get("username_attempted", "")` and
`data.get("password_attempted", "")`. -/
def send_alert_email_lines (request_path ip_address : String)
    (data : SignalData) (timestamp accept_language accept_encoding
    dataStr : String) : List String :=
  build_email_body_lines ip_address request_path "POST" timestamp
    (data.username_attempted.getD "") (data.password_attempted.getD "")
    (data.honeypot_triggered.getD false) data.timing_issue
    data.elapsed_time (data.user_agent.getD "") (data.referer.getD "")
    accept_language accept_encoding dataStr

/-! ## services.py: the sanitizing sink -/

/-- Modelled from the spec: `utils.sanitize_password` is imported by
`services.py` and exercised by `tests/test_utils.py`, but its definition
is not among the provided sources.  Per the spec (§6: password attempt
strings are "sanitized to a `\x22***N chars***\x22` placeholder") and the
tests (`sanitize_password("secret123") == "***9 chars***"`,
`sanitize_password("") == ""`, `sanitize_password(None) == ""`), it maps
a falsy input to `""` and any other string to the placeholder naming the
original length. -/
def sanitize_password (p : Option String) : String :=
  match p with
  | some s => if s = "" then "" else "***" ++ toString s.length ++ " chars***"
  | Option.none => ""

/-- The password field of `HoneyGuardService._format_log_data`
(`services.py` line 50): `sanitize_password(self.data.get("password",
""))`. -/
def service_format_password (pw : Option String) : String :=
  sanitize_password (some (pw.getD ""))

/-- The password column written by `HoneyGuardService.log_trigger`
(`services.py` line 73): `sanitize_password(self.data.get("password"))`. -/
def service_log_password (pw : Option String) : String :=
  sanitize_password pw

/-! ## The timestamp signer

Modelled from the spec: the repository's render-time signer (the views
create a `django.core.signing.TimestampSigner`, sign the render
timestamp into the form, and unsign it with a max age on submission, as
exercised by `tests/test_views.py`) is not among the provided view
sources, which only keep the session-based variant.  Per spec §4.1:
`sign(timestamp)` produces an opaque token embedding the timestamp plus
a message-authentication code and a signing time; `unsign(token,
maxAgeSeconds)` returns the timestamp or `BadSignature` (MAC mismatch /
malformed token) or `Expired` (signing time plus max age passed).

The token is a byte string `valueDigits ++ SEP ++ timeDigits ++ SEP ++
mac`, mirroring Django's `value:base62(timestamp):mac` layout: numbers
are base-62 digit strings (digits < 62, so they never collide with the
separator), the MAC is computed over everything before the last
separator, MAC bytes never equal the separator, and `unsign` splits on
the *last* separator exactly as Django's `rpartition(':')` does.  The
keyed MAC is modelled as an ideal (per-byte injective, separator-free)
code — the perfect-MAC idealization of HMAC. -/

/-- The separator byte (Django's `':'`); base-62 digits stay below it. -/
def SEP : Nat := 62

/-- Little-endian base-62 digits, with structural fuel so that the
encoding evaluates by kernel reduction; `fuel ≥ n` suffices. -/
def toDigitsAux : Nat → Nat → List Nat
  | 0, _ => []
  | fuel + 1, n => if n = 0 then [] else (n % 62) :: toDigitsAux fuel (n / 62)

/-- Little-endian base-62 digits of a natural number (empty for 0),
modelling the signer's base-62 timestamp encoding. -/
def toDigits (n : Nat) : List Nat := toDigitsAux n n

/-- Decoding of a little-endian base-62 digit string. -/
def ofDigits : List Nat → Nat
  | [] => 0
  | d :: ds => d + 62 * ofDigits ds

/-- One byte of the ideal keyed MAC: a key-dependent permutation of the
byte range that never produces the separator byte. -/
def macByte (key x : Nat) : Nat :=
  let y := (x + key) % 256
  if SEP ≤ y then y + 1 else y

/-- The ideal keyed MAC over a byte string. -/
def macFn (key : Nat) (l : List Nat) : List Nat :=
  l.map (macByte key)

/-- Split a byte string at the *last* occurrence of `SEP` (Django's
`value.rpartition(':')`); `none` when no separator occurs. -/
def rsplitSep : List Nat → Option (List Nat × List Nat)
  | [] => Option.none
  | x :: xs =>
      match rsplitSep xs with
      | some (p, m) => some (x :: p, m)
      | Option.none => if x = SEP then some ([], xs) else Option.none

/-- The signer's error outcomes (spec §4.1). -/
inductive SigError where
  | BadSignature
  | Expired
deriving DecidableEq, Repr

/-- The signed part of a token: the timestamp value followed by the
signing time. -/
def signedPayload (t signTime : Nat) : List Nat :=
  toDigits t ++ SEP :: toDigits signTime

/-- `sign(t)` at signing time `signTime` under `key`: the payload
followed by its MAC. -/
def sign (key t signTime : Nat) : List Nat :=
  signedPayload t signTime ++ SEP :: macFn key (signedPayload t signTime)

/-- `unsign(token, maxAge)` at current time `now` under `key`: split off
the MAC at the last separator and verify it, split the payload into
value and signing time, reject when more than `maxAge` has elapsed since
signing, otherwise return the decoded timestamp.  Any framing failure is
a `BadSignature`. -/
def unsign (key : Nat) (token : List Nat) (now maxAge : Nat) :
    Except SigError Nat :=
  match rsplitSep token with
  | Option.none => .error .BadSignature
  | some (p, m) =>
      if macFn key p = m then
        match rsplitSep p with
        | Option.none => .error .BadSignature
        | some (vd, td) =>
            if (ofDigits td) + maxAge < now then .error .Expired
            else .ok (ofDigits vd)
      else .error .BadSignature

/-! ### Signer lemmas -/

lemma macByte_ne_sep (key x : Nat) : macByte key x ≠ SEP := by
  simp only [macByte, SEP]
  split <;> omega

lemma sep_not_mem_macFn (key : Nat) (l : List Nat) : SEP ∉ macFn key l := by
  simp only [macFn, List.mem_map, not_exists]
  rintro x ⟨-, hx⟩
  exact macByte_ne_sep key x hx

lemma macByte_inj (key : Nat) {a b : Nat} (ha : a < 256) (hb : b < 256)
    (h : macByte key a = macByte key b) : a = b := by
  simp only [macByte, SEP] at h
  split at h <;> split at h <;> omega

lemma toDigitsAux_lt (fuel : Nat) : ∀ n, ∀ d ∈ toDigitsAux fuel n, d < 62 := by
  induction fuel with
  | zero => intro n d hd; simp [toDigitsAux] at hd
  | succ fuel ih =>
    intro n d hd
    simp only [toDigitsAux] at hd
    split at hd
    · simp at hd
    · rcases List.mem_cons.mp hd with rfl | hd
      · exact Nat.mod_lt _ (by decide)
      · exact ih (n / 62) d hd

lemma toDigits_lt (n : Nat) : ∀ d ∈ toDigits n, d < 62 :=
  toDigitsAux_lt n n

lemma sep_not_mem_toDigits (n : Nat) : SEP ∉ toDigits n := by
  intro h
  have := toDigits_lt n SEP h
  simp [SEP] at this

lemma ofDigits_toDigitsAux (fuel : Nat) :
    ∀ n, n ≤ fuel → ofDigits (toDigitsAux fuel n) = n := by
  induction fuel with
  | zero =>
    intro n hn
    interval_cases n
    rfl
  | succ fuel ih =>
    intro n hn
    simp only [toDigitsAux]
    split
    · rename_i h
      simp [ofDigits, h]
    · rename_i h
      simp only [ofDigits]
      rw [ih (n / 62) (by omega)]
      omega

lemma ofDigits_toDigits (n : Nat) : ofDigits (toDigits n) = n :=
  ofDigits_toDigitsAux n n le_rfl

lemma payload_bytes_lt (t st : Nat) : ∀ x ∈ signedPayload t st, x < 256 := by
  intro x hx
  simp only [signedPayload, List.mem_append, List.mem_cons] at hx
  rcases hx with hx | rfl | hx
  · exact lt_trans (toDigits_lt t x hx) (by decide)
  · decide
  · exact lt_trans (toDigits_lt st x hx) (by decide)

lemma rsplitSep_eq_none {l : List Nat} (h : SEP ∉ l) :
    rsplitSep l = Option.none := by
  induction l with
  | nil => rfl
  | cons x xs ih =>
    simp only [List.mem_cons, not_or] at h
    simp only [rsplitSep, ih h.2]
    rw [if_neg (fun hx => h.1 hx.symm)]

lemma rsplitSep_append_sep (p : List Nat) {m : List Nat} (h : SEP ∉ m) :
    rsplitSep (p ++ SEP :: m) = some (p, m) := by
  induction p with
  | nil =>
    simp [List.nil_append, rsplitSep, rsplitSep_eq_none h]
  | cons x xs ih =>
    simp only [List.cons_append, rsplitSep, List.append_eq]
    rw [ih]

lemma rsplitSep_append_nosep (p : List Nat) {m : List Nat} (h : SEP ∉ m) :
    rsplitSep (p ++ m) =
      (rsplitSep p).map (fun q => (q.1, q.2 ++ m)) := by
  induction p with
  | nil =>
    simp [rsplitSep_eq_none h, rsplitSep]
  | cons x xs ih =>
    simp only [List.cons_append, rsplitSep, List.append_eq]
    rw [ih]
    cases hx : rsplitSep xs with
    | none =>
      simp only [Option.map_none']
      split <;> simp
    | some q => simp

lemma length_macFn (key : Nat) (l : List Nat) :
    (macFn key l).length = l.length := List.length_map l (macByte key)

lemma set_ne_of_ne {l : List Nat} {j b : Nat} (hj : j < l.length)
    (hb : b ≠ l.get ⟨j, hj⟩) : l.set j b ≠ l := by
  intro he
  apply hb
  have h1 : (l.set j b).get ⟨j, by simpa⟩ = b := by
    simp [List.get_eq_getElem, List.getElem_set_self]
  calc b = (l.set j b).get ⟨j, by simpa⟩ := h1.symm
    _ = l.get ⟨j, hj⟩ := by simp [List.get_eq_getElem, he]

lemma macFn_set_ne (key : Nat) {P : List Nat} {j b : Nat}
    (hj : j < P.length) (hb : b < 256) (hP : ∀ x ∈ P, x < 256)
    (hne : b ≠ P.get ⟨j, hj⟩) :
    macFn key (P.set j b) ≠ macFn key P := by
  simp only [macFn, List.map_set]
  apply set_ne_of_ne (by simpa)
  simp only [List.get_eq_getElem, List.getElem_map]
  intro h
  exact hne (macByte_inj key hb (hP _ (List.getElem_mem hj)) h)

lemma unsign_sign_eq (key t st now maxAge : Nat) :
    unsign key (sign key t st) now maxAge =
      if st + maxAge < now then .error .Expired else .ok t := by
  have h1 : rsplitSep (sign key t st) =
      some (signedPayload t st, macFn key (signedPayload t st)) :=
    rsplitSep_append_sep _ (sep_not_mem_macFn key _)
  have h2 : rsplitSep (signedPayload t st) = some (toDigits t, toDigits st) :=
    rsplitSep_append_sep _ (sep_not_mem_toDigits st)
  simp [unsign, h1, h2, ofDigits_toDigits]

lemma unsign_tampered (key t st now maxAge : Nat) {i b : Nat}
    (hi : i < (sign key t st).length) (hb : b < 256)
    (hne : b ≠ (sign key t st).get ⟨i, hi⟩) :
    unsign key ((sign key t st).set i b) now maxAge =
      .error .BadSignature := by
  set P := signedPayload t st with hP
  set M := macFn key P with hM
  have hMlen : M.length = P.length := length_macFn key P
  have hMsep : SEP ∉ M := sep_not_mem_macFn key P
  have hsign : sign key t st = P ++ SEP :: M := rfl
  have hlen : (sign key t st).length = P.length + 1 + M.length := by
    simp [hsign]; omega
  rcases Nat.lt_trichotomy i P.length with hiP | hiP | hiP
  · -- the altered byte lies inside the signed payload
    have hset : (sign key t st).set i b = P.set i b ++ SEP :: M := by
      rw [hsign, List.set_append, if_pos hiP]
    have hidx : (sign key t st).get ⟨i, hi⟩ = P.get ⟨i, hiP⟩ :=
      List.getElem_append_left _
    have hsplit : rsplitSep ((sign key t st).set i b) = some (P.set i b, M) := by
      rw [hset]
      exact rsplitSep_append_sep _ hMsep
    have hmac : macFn key (P.set i b) ≠ M := by
      rw [hM]
      exact macFn_set_ne key hiP hb (payload_bytes_lt t st) (hidx ▸ hne)
    simp [unsign, hsplit, hmac]
  · -- the altered byte is the payload/mac separator
    have hidx : (sign key t st).get ⟨i, hi⟩ = SEP := by
      have h2 : (sign key t st).get ⟨i, hi⟩ =
          (SEP :: M).get ⟨i - P.length, by simp only [List.length_cons]; omega⟩ :=
        List.getElem_append_right (le_of_eq hiP.symm)
      rw [h2]
      simp [List.get_eq_getElem, hiP]
    have hbsep : b ≠ SEP := fun hb62 => hne (by rw [hidx, hb62])
    have hset : (sign key t st).set i b = P ++ b :: M := by
      rw [hsign, List.set_append, if_neg (by omega), hiP]
      simp
    have hre : P ++ b :: M = toDigits t ++ SEP :: (toDigits st ++ b :: M) := by
      rw [hP]
      simp [signedPayload]
    have hnosep : SEP ∉ toDigits st ++ b :: M := by
      simp only [List.mem_append, List.mem_cons, not_or]
      exact ⟨sep_not_mem_toDigits st, fun h => hbsep h.symm, hMsep⟩
    have hsplit : rsplitSep ((sign key t st).set i b) =
        some (toDigits t, toDigits st ++ b :: M) := by
      rw [hset, hre]
      exact rsplitSep_append_sep _ hnosep
    have hmac : macFn key (toDigits t) ≠ toDigits st ++ b :: M := by
      intro h
      have := congrArg List.length h
      rw [length_macFn] at this
      simp only [List.length_append, List.length_cons] at this
      have hPlen : P.length = (toDigits t).length + 1 + (toDigits st).length := by
        rw [hP]; simp [signedPayload]; omega
      omega
    simp [unsign, hsplit, hmac]
  · -- the altered byte lies inside the mac
    obtain ⟨k, hk⟩ : ∃ k, i = P.length + 1 + k := ⟨i - P.length - 1, by omega⟩
    have hkM : k < M.length := by omega
    have hset : (sign key t st).set i b = P ++ SEP :: M.set k b := by
      rw [hsign, List.set_append, if_neg (by omega), hk]
      have : P.length + 1 + k - P.length = k + 1 := by omega
      rw [this]
      rfl
    have hidx : (sign key t st).get ⟨i, hi⟩ = M.get ⟨k, hkM⟩ := by
      have h2 : (sign key t st).get ⟨i, hi⟩ =
          (SEP :: M).get ⟨i - P.length, by simp only [List.length_cons]; omega⟩ :=
        List.getElem_append_right (le_of_lt hiP)
      rw [h2]
      have h3 : i - P.length = k + 1 := by omega
      simp [List.get_eq_getElem, h3]
    by_cases hbsep : b = SEP
    · -- the byte becomes a separator: the framing shifts and lengths clash
      have hMset : M.set k b = M.take k ++ SEP :: M.drop (k + 1) := by
        rw [hbsep]
        exact List.set_eq_take_cons_drop SEP hkM
      have hre : P ++ SEP :: M.set k b =
          (P ++ SEP :: M.take k) ++ SEP :: M.drop (k + 1) := by
        rw [hMset]
        simp
      have hnosep : SEP ∉ M.drop (k + 1) :=
        fun h => hMsep (List.mem_of_mem_drop h)
      have hsplit : rsplitSep ((sign key t st).set i b) =
          some (P ++ SEP :: M.take k, M.drop (k + 1)) := by
        rw [hset, hre]
        exact rsplitSep_append_sep _ hnosep
      have hmac : macFn key (P ++ SEP :: M.take k) ≠ M.drop (k + 1) := by
        intro h
        have := congrArg List.length h
        rw [length_macFn] at this
        simp only [List.length_append, List.length_cons, List.length_take,
          List.length_drop] at this
        omega
      simp [unsign, hsplit, hmac]
    · -- the byte stays inside the mac: the mac no longer matches
      have hnosep : SEP ∉ M.set k b := by
        intro h
        rcases List.mem_or_eq_of_mem_set h with h | h
        · exact hMsep h
        · exact hbsep h.symm
      have hsplit : rsplitSep ((sign key t st).set i b) =
          some (P, M.set k b) := by
        rw [hset]
        exact rsplitSep_append_sep _ hnosep
      have hmac : macFn key P ≠ M.set k b := by
        rw [← hM]
        exact fun h => set_ne_of_ne hkM (hidx ▸ hne) h.symm
      simp [unsign, hsplit, hmac]

/-! ## Claim theorems -/

/-- Claim C3: for every combination of the three flags, the risk score
equals the sum of +50 for a triggered honeypot, +30 for a TooFast timing
issue (TooSlow contributing 0) and +20 for an absent user-agent string,
clamped to [0,100]; it is monotone non-decreasing in each contributing
flag; all three flags set yields exactly 100 and all clear yields
exactly 0. -/
theorem risk_score_spec (hp : Bool) (ti : TimingIssue) (ua : String)
    (e : Option ℚ) :
    HoneyGuardLog.risk_score ⟨hp, ti, ua, e⟩ =
      min ((if hp then 50 else 0) + (if ti = TimingIssue.TOO_FAST then 30 else 0)
        + (if ua = "" then 20 else 0)) 100
    ∧ HoneyGuardLog.risk_score ⟨hp, ti, ua, e⟩ ≤ 100
    ∧ HoneyGuardLog.risk_score ⟨false, ti, ua, e⟩ ≤
        HoneyGuardLog.risk_score ⟨true, ti, ua, e⟩
    ∧ HoneyGuardLog.risk_score ⟨hp, ti, ua, e⟩ ≤
        HoneyGuardLog.risk_score ⟨hp, TimingIssue.TOO_FAST, ua, e⟩
    ∧ HoneyGuardLog.risk_score ⟨hp, ti, ua, e⟩ ≤
        HoneyGuardLog.risk_score ⟨hp, ti, "", e⟩
    ∧ HoneyGuardLog.risk_score ⟨true, TimingIssue.TOO_FAST, "", e⟩ = 100
    ∧ (hp = false → ti ≠ TimingIssue.TOO_FAST → ua ≠ "" →
        HoneyGuardLog.risk_score ⟨hp, ti, ua, e⟩ = 0) := by
  by_cases hua : ua = "" <;>
    cases hp <;> cases ti <;>
      simp [HoneyGuardLog.risk_score, pyBool, hua]

/-- Witness for the risk-score claim at concrete inputs: all-clear
scores 0 and all three flags score exactly 100. -/
theorem risk_score_spec_witness :
    HoneyGuardLog.risk_score ⟨false, TimingIssue.VALID, "Mozilla/5.0", Option.none⟩ = 0
    ∧ HoneyGuardLog.risk_score ⟨true, TimingIssue.TOO_FAST, "", Option.none⟩ = 100 :=
  ⟨(risk_score_spec false TimingIssue.VALID "Mozilla/5.0" Option.none).2.2.2.2.2.2
      rfl (by decide) (by decide),
   (risk_score_spec false TimingIssue.VALID "Mozilla/5.0" Option.none).2.2.2.2.2.1⟩

/-- Claim C7: the derived `is_bot` predicate holds iff the honeypot was
triggered or the timing issue is TooFast; a TooSlow timing issue alone
never makes `is_bot` true. -/
theorem is_bot_spec (hp : Bool) (ti : TimingIssue) (ua : String)
    (e : Option ℚ) :
    (HoneyGuardLog.is_bot ⟨hp, ti, ua, e⟩ = true ↔
      hp = true ∨ ti = TimingIssue.TOO_FAST)
    ∧ HoneyGuardLog.is_bot ⟨false, TimingIssue.TOO_SLOW, ua, e⟩ = false := by
  constructor
  · cases hp <;> cases ti <;> simp [HoneyGuardLog.is_bot]
  · simp [HoneyGuardLog.is_bot]

/-- Claim C4: the timing classifier returns TooFast when the elapsed
time is strictly below the too-fast threshold (this check runs first),
TooSlow when it is strictly above the too-slow threshold, and Valid
otherwise; an elapsed time equal to either threshold classifies as
Valid. -/
theorem check_timing_attack_spec (rt now fast slow : ℚ) :
    (now - rt < fast →
      check_timing_attack (some rt) now fast slow =
        (some TimingIssue.TOO_FAST, some (now - rt)))
    ∧ (fast ≤ now - rt → slow < now - rt →
      check_timing_attack (some rt) now fast slow =
        (some TimingIssue.TOO_SLOW, some (now - rt)))
    ∧ (fast ≤ now - rt → now - rt ≤ slow →
      check_timing_attack (some rt) now fast slow =
        (some TimingIssue.VALID, some (now - rt)))
    ∧ (fast ≤ slow →
      check_timing_attack (some rt) (rt + fast) fast slow =
        (some TimingIssue.VALID, some fast)
      ∧ check_timing_attack (some rt) (rt + slow) fast slow =
        (some TimingIssue.VALID, some slow)) := by
  refine ⟨fun h => ?_, fun h1 h2 => ?_, fun h1 h2 => ?_, fun hfs => ⟨?_, ?_⟩⟩
  · simp [check_timing_attack, if_pos h]
  · simp only [check_timing_attack]
    rw [if_neg (not_lt.2 h1), if_pos h2]
  · simp only [check_timing_attack]
    rw [if_neg (not_lt.2 h1), if_neg (not_lt.2 h2)]
  · simp only [check_timing_attack, add_sub_cancel_left]
    rw [if_neg (lt_irrefl fast), if_neg (not_lt.2 hfs)]
  · simp only [check_timing_attack, add_sub_cancel_left]
    rw [if_neg (not_lt.2 hfs), if_neg (lt_irrefl slow)]

/-- Witness for the timing-classifier claim at concrete inputs: with
thresholds 2 and 600, elapsed 1 is TooFast, elapsed 601 is TooSlow,
elapsed 10 is Valid, and elapsed exactly 2 or exactly 600 is Valid. -/
theorem check_timing_attack_spec_witness :
    check_timing_attack (some 0) 1 2 600 =
      (some TimingIssue.TOO_FAST, some 1)
    ∧ check_timing_attack (some 0) 601 2 600 =
      (some TimingIssue.TOO_SLOW, some 601)
    ∧ check_timing_attack (some 0) 10 2 600 =
      (some TimingIssue.VALID, some 10)
    ∧ check_timing_attack (some 0) (0 + 2) 2 600 =
      (some TimingIssue.VALID, some 2)
    ∧ check_timing_attack (some 0) (0 + 600) 2 600 =
      (some TimingIssue.VALID, some 600) :=
  ⟨by have := (check_timing_attack_spec 0 1 2 600).1 (by norm_num)
      simpa using this,
   by have := (check_timing_attack_spec 0 601 2 600).2.1 (by norm_num) (by norm_num)
      simpa using this,
   by have := (check_timing_attack_spec 0 10 2 600).2.2.1 (by norm_num) (by norm_num)
      simpa using this,
   ((check_timing_attack_spec 0 0 2 600).2.2.2 (by norm_num)).1,
   ((check_timing_attack_spec 0 0 2 600).2.2.2 (by norm_num)).2⟩

/-- Claim C5 (code bug): for an absent or unparsable render time the
classifier in `utils.check_timing_attack` returns `(None, None)` — not
the `(Valid, 0.0)` demanded by the spec and by
`tests/test_utils.py::TestCheckTimingAttack` (`test_timing_none`,
`test_timing_empty_string`, `test_timing_invalid_format`).  The failure
is non-fatal (the `except` branch only logs a warning), but the
returned pair differs from the specified one. -/
theorem check_timing_attack_unparsable :
    check_timing_attack Option.none 100 2 600 = (Option.none, Option.none)
    ∧ check_timing_attack Option.none 100 2 600 ≠
        (some TimingIssue.VALID, some 0) := by
  exact ⟨rfl, by simp [check_timing_attack]⟩

/-- Claim C6 counterexample: on the `views.py` signal path the honeypot
flag is computed without trimming, so the whitespace-only value `" "`
triggers detection there even though its trimmed form is empty — the
claim that every submission-handling path tests the trimmed value fails. -/
theorem honeypot_whitespace_counterexample :
    viewsHoneypotTriggered [("hp", " ")] = true ∧ pyStrip " " = "" := by
  exact ⟨rfl, rfl⟩

/-- Claim C6 as amended: the mixin path (`mixins.py`) and the service
path (`services.py`) trigger the honeypot iff the hidden-field value is
non-empty after trimming whitespace, while the view signal path
(`views.py` line 94) triggers iff the raw value is non-empty, without
trimming — so a whitespace-only value does trigger detection on that
path. -/
theorem honeypot_triggered_paths (data : List (String × String)) :
    (is_honeypot_triggered data = true ↔ pyStrip (dictGet data "hp" "") ≠ "")
    ∧ (serviceHoneypotTriggered data = true ↔
        pyStrip (dictGet data "hp" "") ≠ "")
    ∧ (viewsHoneypotTriggered data = true ↔ dictGet data "hp" "" ≠ "") := by
  refine ⟨?_, ?_, ?_⟩ <;>
    simp [is_honeypot_triggered, serviceHoneypotTriggered,
      viewsHoneypotTriggered, pyBool]

/-- Claim C10: after every request to `FakeAdminView` — GET or POST —
`dispatch` overwrites the session's `form_render_time` with a timestamp
taken after the response is produced; the pop performed inside `post` is
always followed by that write; the render time consumed by a POST's
timing check is the value the session held on entry, i.e. the timestamp
written at the completion of the client's previous request to the view. -/
theorem dispatch_session_render_time (m : Method) (s : Session)
    (now now2 : String) :
    ((dispatchStep m s now).2.form_render_time = some now)
    ∧ ((dispatchStep Method.POST s now).1 = s.form_render_time)
    ∧ ((dispatchStep Method.POST (dispatchStep m s now).2 now2).1 = some now)
    ∧ ((dispatchStep Method.GET (dispatchStep m s now).2 now2).1 =
        Option.none) := by
  cases m <;> simp [dispatchStep, postStep, getStep]

/-- Claim C1 (code bug): `conf.Settings` performs no validation at all,
so accessing `TIMING_TOO_FAST_THRESHOLD` configured as `-5` returns `-5`
instead of raising `ImproperlyConfigured` ("must be >= 0.1"), accessing
`LOG_LEVEL` configured as `"debug"` returns `"debug"` un-normalized
instead of `"DEBUG"`, and accessing `EMAIL_RECIPIENTS` configured as the
string `"not-a-list"` returns that string instead of raising
`ImproperlyConfigured` ("must be a list") — contradicting the behavior
asserted by `tests/test_conf.py`. -/
theorem settings_access_unvalidated :
    settingsAccess ⟨some [("TIMING_TOO_FAST_THRESHOLD", .int (-5))], []⟩
        "TIMING_TOO_FAST_THRESHOLD" = .ok (.int (-5))
    ∧ settingsAccess ⟨some [("LOG_LEVEL", .str "debug")], []⟩
        "LOG_LEVEL" = .ok (.str "debug")
    ∧ settingsAccess ⟨some [("EMAIL_RECIPIENTS", .str "not-a-list")], []⟩
        "EMAIL_RECIPIENTS" = .ok (.str "not-a-list") := by
  refine ⟨rfl, rfl, rfl⟩

/-- Claim C9: when several configuration sources provide a value for a
key, the access returns the entry of the `HONEYGUARD` dictionary when
the key is present there; otherwise the `HONEYGUARD_<key>` individual
setting when set; otherwise the built-in default from `DEFAULTS`. -/
theorem settings_precedence (dj : DjangoSettings) (name : String) :
    (∀ v, pyLookup (dj.honeyguard.getD []) name = some v →
      get_setting dj name = v)
    ∧ (∀ v, pyLookup (dj.honeyguard.getD []) name = Option.none →
        pyLookup dj.attrs ("HONEYGUARD_" ++ name) = some v →
        get_setting dj name = v)
    ∧ (pyLookup (dj.honeyguard.getD []) name = Option.none →
        pyLookup dj.attrs ("HONEYGUARD_" ++ name) = Option.none →
        get_setting dj name = (DEFAULTS name).getD Value.none) := by
  refine ⟨fun v hv => ?_, fun v h1 h2 => ?_, fun h1 h2 => ?_⟩ <;>
    simp [get_setting, *]

/-- Witness for the precedence claim at concrete inputs: the dictionary
entry wins over the individual setting, the individual setting wins when
the dictionary lacks the key, and the default applies when both are
absent. -/
theorem settings_precedence_witness :
    get_setting ⟨some [("LOG_LEVEL", .str "from-dict")],
        [("HONEYGUARD_LOG_LEVEL", .str "from-attr")]⟩ "LOG_LEVEL" =
      .str "from-dict"
    ∧ get_setting ⟨some [], [("HONEYGUARD_LOG_LEVEL", .str "from-attr")]⟩
        "LOG_LEVEL" = .str "from-attr"
    ∧ get_setting ⟨some [], []⟩ "LOG_LEVEL" = .str "WARNING" :=
  ⟨(settings_precedence ⟨some [("LOG_LEVEL", .str "from-dict")],
      [("HONEYGUARD_LOG_LEVEL", .str "from-attr")]⟩ "LOG_LEVEL").1 _ rfl,
   (settings_precedence ⟨some [], [("HONEYGUARD_LOG_LEVEL", .str "from-attr")]⟩
      "LOG_LEVEL").2.1 _ rfl rfl,
   (settings_precedence ⟨some [], []⟩ "LOG_LEVEL").2.2 rfl rfl⟩

/-- Claim C2: for every timestamp and max age, unsigning the token
produced by signing returns the timestamp unchanged while within the age
window, returns an Expired error once more than the max age has elapsed
since signing, and returns a BadSignature error for any token in which
any single byte has been altered. -/
theorem sign_unsign_spec (key t st now maxAge : Nat) :
    (now ≤ st + maxAge →
      unsign key (sign key t st) now maxAge = .ok t)
    ∧ (st + maxAge < now →
      unsign key (sign key t st) now maxAge = .error .Expired)
    ∧ (∀ i b, ∀ hi : i < (sign key t st).length, b < 256 →
        b ≠ (sign key t st).get ⟨i, hi⟩ →
        unsign key ((sign key t st).set i b) now maxAge =
          .error .BadSignature) := by
  refine ⟨fun h => ?_, fun h => ?_,
    fun i b hi hb hne => unsign_tampered key t st now maxAge hi hb hne⟩
  · rw [unsign_sign_eq, if_neg (by omega)]
  · rw [unsign_sign_eq, if_pos h]

/-- Witness for the signer claim at concrete inputs: signing timestamp 3
at signing time 1 under key 7 unsigns to 3 at time 6 with max age 5,
expires at time 7, and flipping the first byte yields BadSignature. -/
theorem sign_unsign_spec_witness :
    unsign 7 (sign 7 3 1) 6 5 = .ok 3
    ∧ unsign 7 (sign 7 3 1) 7 5 = .error .Expired
    ∧ unsign 7 ((sign 7 3 1).set 0 1) 6 5 = .error .BadSignature :=
  ⟨(sign_unsign_spec 7 3 1 6 5).1 (by decide),
   (sign_unsign_spec 7 3 1 7 5).2.1 (by decide),
   (sign_unsign_spec 7 3 1 6 5).2.2 0 1 (by decide) (by decide) (by decide)⟩

/-- Claim C8 (code bug): on the signal-handler path that is wired to
`honeypot_triggered` in the provided sources, the clear-text password is
both persisted and emailed: `handlers.log_to_database` stores
`data.get("password_attempted", "")` unmodified and
`utils.build_email_body` embeds it in the alert body, while the
specified (and service-path/tested) behavior replaces it with the
`"***N chars***"` placeholder of `sanitize_password`. -/
theorem handler_path_password_cleartext :
    "Password: secret123" ∈
      send_alert_email_lines "/admin/" "203.0.113.1"
        { username_attempted := some "admin",
          password_attempted := some "secret123",
          honeypot_triggered := some true }
        "2024-01-01T00:00:00" "en-US" "gzip" "metadata"
    ∧ "Password: ***9 chars***" ∉
      send_alert_email_lines "/admin/" "203.0.113.1"
        { username_attempted := some "admin",
          password_attempted := some "secret123",
          honeypot_triggered := some true }
        "2024-01-01T00:00:00" "en-US" "gzip" "metadata"
    ∧ (log_to_database_row "/admin/" "POST" "203.0.113.1"
        { password_attempted := some "secret123" }).password_attempted =
      "secret123"
    ∧ sanitize_password (some "secret123") = "***9 chars***"
    ∧ service_log_password (some "secret123") = "***9 chars***" := by
  refine ⟨by decide, by decide, rfl, rfl, rfl⟩

end HoneyGuard
